import Mathlib

/-!
Shallow embedding of `eolearn.geometry.data_transform` (module
`src/geometry/eolearn/geometry/data_transform.py`): the `VectorToRaster`
and `RasterToVector` tasks that convert between raster mask features and
vector polygon features of an EOPatch.

Modelling conventions:
* numpy arrays become `NdArray`: an explicit shape list, a flattened value
  list and a dtype tag; `squeeze`, trailing `np.newaxis`, `np.ones * v`
  and time slicing are modelled shape-arithmetically exactly as numpy
  performs them.
* shapely/geopandas geometries become finite point sets (`List Pt`);
  `intersects` is shared-point existence and `intersection` is point-set
  intersection, the documented contract of the library predicates.
* `rasterio.features.rasterize(shapes, out=..., transform=...)` is
  modelled by its documented contract: pixels covered by the burned
  geometry receive the burn value, all other pixels of `out` keep their
  previous value, and the shape/dtype of `out` are untouched.  The affine
  transform is modelled as the identity between geometry coordinates and
  pixel indices (its arithmetic is irrelevant to the verified claims).
* `rasterio.features.shapes(slice, mask=...)` is modelled by its
  documented contract: it yields one `(geometry, value)` pair per region
  of equal-valued unmasked cells, where each yielded geometry consists
  only of unmasked cells and its value is the raster value shared by
  those cells.  (Connectivity of the regions is irrelevant to the
  verified claims, so regions are grouped per value.)
* `pandas.concat(frames, ignore_index=True)` over homogeneous frames is
  row concatenation in list order; `GeoDataFrame(..., crs=c)` records `c`.
* The host `EOPatch`, `FeatureType` and `EOTask.(_parse_features)` come
  from `eolearn.core`, which is outside the embedded module; they are
  modelled from the spec: a patch owns a bounding box with a CRS, an
  ordered timestamp list, and feature lookup/storage by (kind, name);
  feature kinds carry `is_spatial` / `is_discrete` / `is_timeless` tags.
-/

namespace EOGeom

/-- Numpy scalar dtypes that occur in the module (a tag; values are
modelled as integers throughout). -/
inductive DType where
  | uint8
  | uint16
  | int16
  | int32
  | int64
  | float32
deriving DecidableEq

/-- Modelled from the spec: the feature-kind taxonomy of the host patch
(`eolearn.core.FeatureType`, not part of the embedded module).  Kinds are
classified as spatial / discrete / timeless. -/
inductive FeatureType where
  | data
  | mask
  | scalar
  | label
  | vector
  | dataTimeless
  | maskTimeless
  | scalarTimeless
  | labelTimeless
  | vectorTimeless
  | metaInfo
deriving DecidableEq

/-- Modelled from the spec: spatial feature kinds (raster or vector
layers laid out over the patch area). -/
def FeatureType.is_spatial : FeatureType → Bool
  | .data | .mask | .vector | .dataTimeless | .maskTimeless | .vectorTimeless => true
  | _ => false

/-- Modelled from the spec: discrete-valued feature kinds. -/
def FeatureType.is_discrete : FeatureType → Bool
  | .mask | .scalar | .label | .maskTimeless | .scalarTimeless | .labelTimeless => true
  | _ => false

/-- Modelled from the spec: feature kinds with no time axis. -/
def FeatureType.is_timeless : FeatureType → Bool
  | .data | .mask | .scalar | .label | .vector => false
  | _ => true

/-- A point of the plane, identified with a raster cell (row, column);
the affine transform between geographic coordinates and pixel indices is
modelled as the identity. -/
abbrev Pt := Nat × Nat

/-- A shapely geometry, modelled as its finite set of points. -/
abbrev Geometry := List Pt

/-- Contract of `GeoSeries.intersects`: the two geometries share a point. -/
def intersectsB (a b : Geometry) : Bool :=
  a.any (fun pt => b.contains pt)

/-- Contract of `GeoSeries.intersection`: point-set intersection. -/
def intersectionG (a b : Geometry) : Geometry :=
  a.filter (fun pt => b.contains pt)

/-- A numpy array: explicit shape, flattened (row-major) integer values
and a dtype tag. -/
structure NdArray where
  shape : List Nat
  vals : List Int
  dtype : DType
deriving DecidableEq

/-- `numpy.squeeze`: removes every axis of size one; the flattened data
is unchanged. -/
def NdArray.squeeze (a : NdArray) : NdArray :=
  { a with shape := a.shape.filter (fun n => n ≠ 1) }

/-- `array[..., np.newaxis]`: appends a trailing singleton axis. -/
def NdArray.newaxisLast (a : NdArray) : NdArray :=
  { a with shape := a.shape ++ [1] }

/-- `np.ones(shape, dtype) * v`: a freshly allocated array every cell of
which holds `v`. -/
def NdArray.full (shape : List Nat) (v : Int) (dt : DType) : NdArray :=
  { shape := shape, vals := List.replicate shape.prod v, dtype := dt }

/-- `array.astype(dtype)` when a cast dtype is configured, identity
otherwise (integral values are preserved by the casts the module uses). -/
def NdArray.astypeOpt (a : NdArray) : Option DType → NdArray
  | none => a
  | some d => { a with dtype := d }

/-- `array[i, ...]`: the `i`-th slice along the leading (time) axis. -/
def NdArray.sliceTime (a : NdArray) (i : Nat) : NdArray :=
  let rest := a.shape.tail
  { shape := rest, vals := (a.vals.drop (i * rest.prod)).take rest.prod, dtype := a.dtype }

/-- Value of cell `(i, j)` on channel `k` of a `(height, width, channels)`
array with row length `w` and channel count `c` (row-major indexing). -/
def NdArray.valAt3 (a : NdArray) (w c i j k : Nat) : Int :=
  a.vals.getD ((i * w + j) * c + k) 0

/-- An attributed geometry table (`geopandas.GeoDataFrame`) as built by
the module: a geometry column, an optional named value column, an
optional timestamp column, and CRS metadata (an EPSG code). -/
structure GeoDataFrame where
  geometry : List Geometry
  valueCol : Option (String × List Int)
  timestampCol : Option (List Nat)
  crs : Nat
deriving DecidableEq

/-- `rasterio.transform.from_bounds(*bbox, width=w, height=h)`: the
affine geo-transform derived from the patch bounding box and a target
pixel shape.  Its coefficients never influence the verified claims, so
only the derivation inputs are recorded. -/
structure Affine where
  width : Nat
  height : Nat
deriving DecidableEq

/-- Derive the geo-transform of a conversion call. -/
def fromBounds (_bboxPoly : Geometry) (width height : Nat) : Affine :=
  { width := width, height := height }

/-- A row of the input vector dataset: a geometry plus its other
attribute columns (kept abstract as integers). -/
structure VRow where
  geometry : Geometry
  attrs : List Int
deriving DecidableEq

/-- Modelled from the spec: the host patch (`eolearn.core.EOPatch`).  It
owns a bounding-box polygon with a CRS, the ordered timestamp list, and
the raster and vector feature stores keyed by (kind, name). -/
structure EOPatch where
  bboxPoly : Geometry
  crsEpsg : Nat
  timestamps : List Nat
  rasterFeatures : List ((FeatureType × String) × NdArray)
  vectorFeatures : List ((FeatureType × String) × GeoDataFrame)
deriving DecidableEq

/-- `eopatch[feature_type][feature_name]` lookup for raster features. -/
def EOPatch.getRaster (p : EOPatch) (ft : FeatureType) (fn : String) : Option NdArray :=
  (p.rasterFeatures.find? (fun e => decide (e.1 = (ft, fn)))).map Prod.snd

/-- `eopatch[feature_type][feature_name] = a` for raster features. -/
def EOPatch.setRaster (p : EOPatch) (ft : FeatureType) (fn : String) (a : NdArray) : EOPatch :=
  { p with rasterFeatures :=
      ((ft, fn), a) :: p.rasterFeatures.filter (fun e => decide (e.1 ≠ (ft, fn))) }

/-- `eopatch[feature_type][feature_name]` lookup for vector features. -/
def EOPatch.getVector (p : EOPatch) (ft : FeatureType) (fn : String) : Option GeoDataFrame :=
  (p.vectorFeatures.find? (fun e => decide (e.1 = (ft, fn)))).map Prod.snd

/-- `eopatch[feature_type][feature_name] = g` for vector features. -/
def EOPatch.setVector (p : EOPatch) (ft : FeatureType) (fn : String) (g : GeoDataFrame) : EOPatch :=
  { p with vectorFeatures :=
      ((ft, fn), g) :: p.vectorFeatures.filter (fun e => decide (e.1 ≠ (ft, fn))) }

/-- Modelled from the spec: `eopatch.get_spatial_dimension(ft, fn)` of
the host — the (height, width) of a named raster feature, read off the
stored array (axes 0,1 for a timeless feature, axes 1,2 otherwise);
`none` when the feature is absent. -/
def EOPatch.getSpatialDimension (p : EOPatch) (ft : FeatureType) (fn : String) :
    Option (Nat × Nat) :=
  (p.getRaster ft fn).map (fun a =>
    if ft.is_timeless then (a.shape.getD 0 0, a.shape.getD 1 0)
    else (a.shape.getD 1 0, a.shape.getD 2 0))

/-- The `raster_shape` argument of `VectorToRaster`: either an explicit
`(height, width)` pair of ints, a reference to another feature, or a
value of neither form (which `_get_shape` rejects). -/
inductive RasterShapeSpec where
  | explicitPair (height width : Nat)
  | featureRef (ft : FeatureType) (fn : String)
  | unresolvable
deriving DecidableEq

/-- The `VectorToRaster` task configuration (`__init__` fields).  The
pass-through `params` (`all_touched`, `merge_alg`) go verbatim to the
rasterization primitive and are not modelled. -/
structure VectorToRaster where
  feature_type : FeatureType
  feature_name : String
  vector_data : List VRow
  raster_value : Int
  raster_shape : RasterShapeSpec
  raster_dtype : DType
  no_data_value : Int
deriving DecidableEq

/-- `VectorToRaster._get_submap`: keep exactly the rows of `vector_data`
whose geometry intersects the patch bounding-box polygon (on a deep
copy), and replace each kept row's geometry by its intersection with
that polygon. -/
def VectorToRaster.getSubmap (t : VectorToRaster) (p : EOPatch) : List VRow :=
  (t.vector_data.filter (fun r => intersectsB r.geometry p.bboxPoly)).map
    (fun r => { r with geometry := intersectionG r.geometry p.bboxPoly })

/-- `VectorToRaster._get_shape`: an explicit int pair is returned as is;
a feature reference is resolved through the host's spatial-dimension
report; anything else raises `ValueError`. -/
def VectorToRaster.getShape (t : VectorToRaster) (p : EOPatch) :
    Except String (Nat × Nat) :=
  match t.raster_shape with
  | .explicitPair h w => .ok (h, w)
  | .featureRef ft fn =>
    match p.getSpatialDimension ft fn with
    | some hw => .ok hw
    | none => .error "Could not resolve spatial dimensions of the shape feature"
  | .unresolvable => .error "Could not determine shape of the raster image"

/-- `bbox_map.cascaded_union.buffer(0)`: union of the clipped geometries
(point-set union; `buffer(0)` is the identity on the point set). -/
def cascadedUnion (rows : List VRow) : Geometry :=
  (rows.map VRow.geometry).flatten

/-- Contract of `rasterio.features.rasterize([(geom, v)], out=a, ...)`:
every pixel of `a` covered by `geom` receives `v`; every other pixel
keeps its previous value; shape and dtype of `out` are untouched. -/
def rasterizeInto (out : NdArray) (geom : Geometry) (v : Int) : NdArray :=
  let w0 := out.shape.getD 1 0
  let burned := (List.range out.vals.length).map
    (fun idx => if geom.contains (idx / w0, idx % w0) then v else out.vals.getD idx 0)
  { out with vals := burned }

/-- `VectorToRaster.execute`: clip the vector data to the patch window,
resolve the output shape (raising on failure), take the existing feature
(squeezed) or a fresh `no_data_value`-filled grid as the base raster,
burn the union of the clipped geometries when any remain, and store the
result with a trailing singleton channel axis. -/
def VectorToRaster.execute (t : VectorToRaster) (p : EOPatch) : Except String EOPatch :=
  let bboxMap := t.getSubmap p
  match t.getShape p with
  | .error e => .error e
  | .ok hw =>
    let _dataTransform := fromBounds p.bboxPoly hw.2 hw.1
    let raster :=
      match p.getRaster t.feature_type t.feature_name with
      | some a => a.squeeze
      | none => NdArray.full [hw.1, hw.2] t.no_data_value t.raster_dtype
    let raster :=
      if bboxMap.isEmpty then raster
      else rasterizeInto raster (cascadedUnion bboxMap) t.raster_value
    .ok (p.setRaster t.feature_type t.feature_name raster.newaxisLast)

/-- The `RasterToVector` task configuration (`__init__` fields).  The
pass-through `params` (`connectivity`) go verbatim to the
component-tracing primitive and are not modelled. -/
structure RasterToVector where
  features : List (FeatureType × String × String)
  values : Option (List Int)
  value_column_name : Option String
  raster_dtype : Option DType
deriving DecidableEq

/-- `RasterToVector.__init__`: parse the feature list and reject any
feature whose kind is not both spatial and discrete before anything else
runs. -/
def RasterToVector.init (features : List (FeatureType × String × String))
    (values : Option (List Int)) (value_column_name : Option String)
    (raster_dtype : Option DType) : Except String RasterToVector :=
  if features.all (fun f => f.1.is_spatial && f.1.is_discrete) then
    .ok { features := features, values := values,
          value_column_name := value_column_name, raster_dtype := raster_dtype }
  else
    .error "Input features should be a spatial mask"

/-- Python truthiness of the `values` argument as used by
`if self.values:` — `None` and the empty list are falsy. -/
def pyTruthy : Option (List Int) → Bool
  | none => false
  | some [] => false
  | some (_ :: _) => true

/-- All cells of an `h × w` raster plane in row-major order. -/
def cells2D (h w : Nat) : List Pt :=
  (List.range h).flatMap (fun i => (List.range w).map (fun j => (i, j)))

/-- The boolean mask built from the value filter (`mask[raster == value]
= True` over the filter values): a cell passes iff its value is in the
filter; with no mask every cell passes. -/
def maskTest (maskVals : Option (List Int)) (a : NdArray) (w c i j k : Nat) : Bool :=
  match maskVals with
  | none => true
  | some l => l.contains (a.valAt3 w c i j k)

/-- Contract of `rasterio.features.shapes(raster[..., k], mask=...)`:
one `(geometry, value)` pair per region of equal-valued unmasked cells
of channel `k`; each geometry consists only of unmasked cells and its
value is the raster value shared by its cells. -/
def shapesChannel (a : NdArray) (h w c k : Nat) (maskVals : Option (List Int)) :
    List (Geometry × Int) :=
  let cs := (cells2D h w).filter (fun pt => maskTest maskVals a w c pt.1 pt.2 k)
  let vs := (cs.map (fun pt => a.valAt3 w c pt.1 pt.2 k)).dedup
  vs.map (fun v => (cs.filter (fun pt => decide (a.valAt3 w c pt.1 pt.2 k = v)), v))

/-- `RasterToVector._vectorize_single_raster`: build the value mask when
`self.values` is truthy, trace shapes per channel accumulating geometry
and value lists, and assemble the GeoDataFrame with the optional value
column, the constant timestamp column when a timestamp was supplied, and
the given CRS. -/
def RasterToVector.vectorizeSingleRaster (t : RasterToVector) (raster : NdArray)
    (_dataTransform : Affine) (crs : Nat) (tsOpt : Option Nat) : GeoDataFrame :=
  let h := raster.shape.getD 0 0
  let w := raster.shape.getD 1 0
  let c := raster.shape.getLast?.getD 1
  let maskVals := if pyTruthy t.values then t.values else none
  let pairs := (List.range c).flatMap (fun k => shapesChannel raster h w c k maskVals)
  { geometry := pairs.map Prod.fst
    valueCol := t.value_column_name.map (fun nm => (nm, pairs.map Prod.snd))
    timestampCol := tsOpt.map (fun ts => List.replicate (pairs.map Prod.fst).length ts)
    crs := crs }

/-- `GeoDataFrame(pandas.concat(gpd_list, ignore_index=True),
crs=gpd_list[0].crs)`: row-wise concatenation of homogeneous tables in
list order; the result's CRS is the first table's CRS, with no
cross-table CRS check.  `none` models the `IndexError` on an empty list. -/
def composeTables : List GeoDataFrame → Option GeoDataFrame
  | [] => none
  | g0 :: rest =>
    some { geometry := ((g0 :: rest).map GeoDataFrame.geometry).flatten
           valueCol := g0.valueCol.map (fun pr =>
             (pr.1, ((g0 :: rest).map (fun g => (g.valueCol.map Prod.snd).getD [])).flatten))
           timestampCol := g0.timestampCol.map (fun _ =>
             ((g0 :: rest).map (fun g => g.timestampCol.getD [])).flatten)
           crs := g0.crs }

/-- One iteration of the per-time-slice loop of `RasterToVector.execute`:
slice the raster at time index `i` and vectorize it with the host's
`i`-th timestamp (an out-of-range index is the Python `IndexError`). -/
def RasterToVector.sliceTable (t : RasterToVector) (raster : NdArray)
    (dataTransform : Affine) (crs : Nat) (tss : List Nat) (i : Nat) :
    Except String GeoDataFrame :=
  match tss[i]? with
  | none => .error "IndexError: timestamp index out of range"
  | some ts => .ok (t.vectorizeSingleRaster (raster.sliceTime i) dataTransform crs (some ts))

/-- The body of `RasterToVector.execute` for one parsed feature triple:
look up the raster, cast it when a dtype override is configured, derive
the geo-transform from the spatial axes, then either vectorize once with
no timestamp (timeless) or vectorize every time slice in ascending index
order and store the concatenation. -/
def RasterToVector.executeFeature (t : RasterToVector) (p : EOPatch)
    (ft : FeatureType) (fn vfn : String) : Except String EOPatch :=
  let vectorFt := if ft.is_timeless then FeatureType.vectorTimeless else FeatureType.vector
  match p.getRaster ft fn with
  | none => .error "KeyError: missing raster feature"
  | some raster0 =>
    let hw := if ft.is_timeless then (raster0.shape.getD 0 0, raster0.shape.getD 1 0)
              else (raster0.shape.getD 1 0, raster0.shape.getD 2 0)
    let raster := raster0.astypeOpt t.raster_dtype
    let dataTransform := fromBounds p.bboxPoly hw.2 hw.1
    let crs := p.crsEpsg
    if ft.is_timeless then
      .ok (p.setVector vectorFt vfn (t.vectorizeSingleRaster raster dataTransform crs none))
    else
      match (List.range (raster.shape.getD 0 0)).mapM
          (t.sliceTable raster dataTransform crs p.timestamps) with
      | .error e => .error e
      | .ok gl =>
        match composeTables gl with
        | none => .error "IndexError: no time slices"
        | some g => .ok (p.setVector vectorFt vfn g)

/-- `RasterToVector.execute`: process every parsed feature triple in
order, threading the patch. -/
def RasterToVector.execute (t : RasterToVector) (p : EOPatch) : Except String EOPatch :=
  t.features.foldlM (fun q f => t.executeFeature q f.1 f.2.1 f.2.2) p

/-- The value column of a table as a plain list (empty when the column
was suppressed). -/
def valueListOf (g : GeoDataFrame) : List Int :=
  (g.valueCol.map Prod.snd).getD []

/-- One per-time-slice table as produced inside the loop of
`RasterToVector.execute` (the in-range value of `sliceTable`). -/
def RasterToVector.sliceGDF (t : RasterToVector) (raster : NdArray)
    (dataTransform : Affine) (crs : Nat) (tss : List Nat) (i : Nat) : GeoDataFrame :=
  t.vectorizeSingleRaster (raster.sliceTime i) dataTransform crs (some (tss.getD i 0))

/-- The list of per-time-slice tables produced by the loop of
`RasterToVector.execute`, in ascending time-index order. -/
def RasterToVector.sliceGDFList (t : RasterToVector) (raster : NdArray)
    (dataTransform : Affine) (crs : Nat) (tss : List Nat) (T : Nat) : List GeoDataFrame :=
  (List.range T).map (t.sliceGDF raster dataTransform crs tss)

/-! Concrete example inputs used by the closed evaluation theorems. -/

/-- A 1×1×1 raster holding the single value 5. -/
def exArr111 : NdArray := { shape := [1, 1, 1], vals := [5], dtype := .uint8 }

/-- A vectorization task configured with the empty value filter. -/
def exTaskEmptyFilter : RasterToVector :=
  { features := [(.maskTimeless, "M", "V")], values := some [],
    value_column_name := some "VALUE", raster_dtype := none }

/-- A vectorization task configured with the value filter {5}. -/
def exTaskFilter5 : RasterToVector :=
  { features := [(.maskTimeless, "M", "V")], values := some [5],
    value_column_name := some "VALUE", raster_dtype := none }

/-- A geo-transform for a 1×1 target. -/
def exAffine : Affine := fromBounds [] 1 1

/-- An empty table whose CRS metadata is EPSG 4326. -/
def exTableA : GeoDataFrame :=
  { geometry := [], valueCol := none, timestampCol := none, crs := 4326 }

/-- An empty table whose CRS metadata is EPSG 3857. -/
def exTableB : GeoDataFrame :=
  { geometry := [], valueCol := none, timestampCol := none, crs := 3857 }

/-- A time-varying 2×2×2×1 mask: slice 0 holds values 1,1,2,2 and
slice 1 is constant 3. -/
def exMaskArr : NdArray :=
  { shape := [2, 2, 2, 1], vals := [1, 1, 2, 2, 3, 3, 3, 3], dtype := .uint8 }

/-- A host patch holding `exMaskArr` under `(MASK, "M")` with two
timestamps. -/
def exPatchT : EOPatch :=
  { bboxPoly := [], crsEpsg := 32633, timestamps := [10, 20],
    rasterFeatures := [((.mask, "M"), exMaskArr)], vectorFeatures := [] }

/-- A vectorization task over the time-varying feature `(MASK, "M")`. -/
def exTaskT : RasterToVector :=
  { features := [(.mask, "M", "V")], values := none,
    value_column_name := some "VALUE", raster_dtype := none }

/-- A pre-existing 2×2×1 grid of constant value 7 with dtype int32. -/
def exGrid221 : NdArray := { shape := [2, 2, 1], vals := [7, 7, 7, 7], dtype := .int32 }

/-- A host patch holding `exGrid221` under `(MASK_TIMELESS, "M")`; its
bounding-box polygon covers the four cells of a 2×2 grid. -/
def exPatchV : EOPatch :=
  { bboxPoly := [(0, 0), (0, 1), (1, 0), (1, 1)], crsEpsg := 4326, timestamps := [],
    rasterFeatures := [((.maskTimeless, "M"), exGrid221)], vectorFeatures := [] }

/-- A vector row intersecting the patch window at cell (0,0). -/
def exRowIn : VRow := { geometry := [(0, 0), (5, 5)], attrs := [9] }

/-- A vector row entirely outside the patch window. -/
def exRowOut : VRow := { geometry := [(9, 9)], attrs := [3] }

/-- A rasterization task over both example rows, targeting the existing
feature `(MASK_TIMELESS, "M")` with an explicit 2×2 output shape. -/
def exTaskV : VectorToRaster :=
  { feature_type := .maskTimeless, feature_name := "M",
    vector_data := [exRowIn, exRowOut], raster_value := 1,
    raster_shape := .explicitPair 2 2, raster_dtype := .uint8, no_data_value := 0 }

/-- A rasterization task whose only input row misses the patch window,
so the clipped dataset is empty. -/
def exTaskVEmpty : VectorToRaster :=
  { feature_type := .maskTimeless, feature_name := "M",
    vector_data := [exRowOut], raster_value := 1,
    raster_shape := .explicitPair 2 2, raster_dtype := .uint8, no_data_value := 0 }

/-- A rasterization task targeting a feature name absent from the host. -/
def exTaskVNew : VectorToRaster :=
  { feature_type := .maskTimeless, feature_name := "NEW",
    vector_data := [exRowIn], raster_value := 1,
    raster_shape := .explicitPair 2 2, raster_dtype := .uint8, no_data_value := 0 }

/-- A rasterization task whose requested shape (3×3) and dtype (uint8)
both differ from the pre-existing grid `exGrid221` (2×2, int32). -/
def exTaskVMismatch : VectorToRaster :=
  { feature_type := .maskTimeless, feature_name := "M",
    vector_data := [exRowIn], raster_value := 1,
    raster_shape := .explicitPair 3 3, raster_dtype := .uint8, no_data_value := 0 }

/-- A rasterization task with an unresolvable `raster_shape` argument. -/
def exTaskVBadShape : VectorToRaster :=
  { feature_type := .maskTimeless, feature_name := "M",
    vector_data := [exRowIn], raster_value := 1,
    raster_shape := .unresolvable, raster_dtype := .uint8, no_data_value := 0 }

/-- A pre-existing two-channel 2×2×2 grid (no singleton axis). -/
def exArr222 : NdArray :=
  { shape := [2, 2, 2], vals := [0, 0, 0, 0, 0, 0, 0, 0], dtype := .uint8 }

/-- A host patch holding the two-channel grid `exArr222` under
`(MASK_TIMELESS, "M")`. -/
def exPatchV9 : EOPatch :=
  { bboxPoly := [], crsEpsg := 4326, timestamps := [],
    rasterFeatures := [((.maskTimeless, "M"), exArr222)], vectorFeatures := [] }

/-- A rasterization task with no input rows over `exPatchV9`. -/
def exTaskV9 : VectorToRaster :=
  { feature_type := .maskTimeless, feature_name := "M",
    vector_data := [], raster_value := 1,
    raster_shape := .explicitPair 2 2, raster_dtype := .uint8, no_data_value := 0 }

/-! Helper lemmas. -/

/-- Storing a raster feature makes it the one retrieved. -/
theorem getRaster_setRaster (p : EOPatch) (ft : FeatureType) (fn : String) (a : NdArray) :
    (p.setRaster ft fn a).getRaster ft fn = some a := by
  unfold EOPatch.getRaster EOPatch.setRaster
  rw [List.find?_cons_of_pos _ (by simp)]
  rfl

/-- Storing a vector feature makes it the one retrieved. -/
theorem getVector_setVector (p : EOPatch) (ft : FeatureType) (fn : String) (g : GeoDataFrame) :
    (p.setVector ft fn g).getVector ft fn = some g := by
  unfold EOPatch.getVector EOPatch.setVector
  rw [List.find?_cons_of_pos _ (by simp)]
  rfl

/-- A pixel not covered by the burned geometry keeps its value. -/
theorem rasterizeInto_getD (a : NdArray) (geom : Geometry) (v : Int) (idx : Nat)
    (h : geom.contains (idx / a.shape.getD 1 0, idx % a.shape.getD 1 0) = false) :
    (rasterizeInto a geom v).vals.getD idx 0 = a.vals.getD idx 0 := by
  unfold rasterizeInto
  by_cases hlt : idx < a.vals.length
  · rw [List.getD_eq_getElem _ _ (by simpa using hlt)]
    simp only [List.getElem_map, List.getElem_range, h]
    simp
  · rw [List.getD_eq_getElem?_getD, List.getElem?_eq_none (by simpa using Nat.le_of_not_lt hlt),
        List.getD_eq_getElem?_getD a.vals, List.getElem?_eq_none (Nat.le_of_not_lt hlt)]

/-- Every in-range pixel of a freshly allocated grid holds its fill
value. -/
theorem full_getD (shape : List Nat) (v : Int) (dt : DType) (idx : Nat)
    (h : idx < shape.prod) :
    (NdArray.full shape v dt).vals.getD idx 0 = v := by
  unfold NdArray.full
  rw [List.getD_eq_getElem _ _ (by simpa using h)]
  exact List.getElem_replicate ..

/-! Claim theorems. -/

/-- C5: the window clipper returns exactly the input rows whose geometry
intersects the patch window, each with its geometry replaced by the
intersection with the window polygon; rows that do not intersect are
dropped, and no returned geometry is empty.  (The source operates on a
deep copy, so the input dataset is untouched; in this pure embedding the
input list appears unchanged on the right-hand side.) -/
theorem c5_window_clipping (t : VectorToRaster) (p : EOPatch) :
    (∀ r' : VRow, r' ∈ t.getSubmap p ↔ ∃ r ∈ t.vector_data,
        intersectsB r.geometry p.bboxPoly = true ∧
        r' = { r with geometry := intersectionG r.geometry p.bboxPoly }) ∧
    (∀ r' ∈ t.getSubmap p, r'.geometry ≠ []) := by
  constructor
  · intro r'
    unfold VectorToRaster.getSubmap
    simp only [List.mem_map, List.mem_filter]
    constructor
    · rintro ⟨r, ⟨hr, hint⟩, heq⟩
      exact ⟨r, hr, hint, heq.symm⟩
    · rintro ⟨r, hr, hint, heq⟩
      exact ⟨r, ⟨hr, hint⟩, heq.symm⟩
  · intro r' hr'
    unfold VectorToRaster.getSubmap at hr'
    simp only [List.mem_map, List.mem_filter] at hr'
    obtain ⟨r, ⟨_, hint⟩, heq⟩ := hr'
    subst heq
    unfold intersectsB at hint
    obtain ⟨pt, hpt, hc⟩ := List.any_eq_true.mp hint
    have hmem : pt ∈ intersectionG r.geometry p.bboxPoly :=
      List.mem_filter.mpr ⟨hpt, hc⟩
    intro hnil
    have hnil' : intersectionG r.geometry p.bboxPoly = [] := hnil
    rw [hnil'] at hmem
    exact List.not_mem_nil pt hmem

/-- Closed witness for C5: the clipper over the example dataset keeps
the intersecting row (clipped to the window) and its output rows all
carry nonempty geometries. -/
theorem c5_window_clipping_witness :
    ({ geometry := [(0, 0)], attrs := [9] } : VRow) ∈ exTaskV.getSubmap exPatchV ∧
    ∀ r' ∈ exTaskV.getSubmap exPatchV, r'.geometry ≠ [] := by
  refine ⟨?_, (c5_window_clipping exTaskV exPatchV).2⟩
  exact (c5_window_clipping exTaskV exPatchV).1 _ |>.mpr
    ⟨exRowIn, by decide, by decide, by decide⟩

/-- C6: when the requested output shape is unresolvable — neither an
explicit integer pair nor a feature reference with resolvable spatial
dimensions — `VectorToRaster.execute` fails with an error and produces
no updated patch, so no raster content is mutated. -/
theorem c6_unresolvable_shape_error (t : VectorToRaster) (p : EOPatch)
    (h : t.raster_shape = RasterShapeSpec.unresolvable ∨
      ∃ ft fn, t.raster_shape = RasterShapeSpec.featureRef ft fn ∧
        p.getSpatialDimension ft fn = none) :
    (∃ e, t.execute p = Except.error e) ∧ ∀ q, t.execute p ≠ Except.ok q := by
  have hshape : ∃ e, t.getShape p = Except.error e := by
    rcases h with h | ⟨ft, fn, h, hdim⟩
    · refine ⟨"Could not determine shape of the raster image", ?_⟩
      unfold VectorToRaster.getShape
      rw [h]
    · refine ⟨"Could not resolve spatial dimensions of the shape feature", ?_⟩
      unfold VectorToRaster.getShape
      rw [h]
      simp [hdim]
  obtain ⟨e, he⟩ := hshape
  have hex : t.execute p = .error e := by
    unfold VectorToRaster.execute
    rw [he]
  exact ⟨⟨e, hex⟩, fun q hq => by rw [hex] at hq; exact Except.noConfusion hq⟩

/-- Closed witness for C6: the example task with an unresolvable shape
argument fails. -/
theorem c6_unresolvable_shape_error_witness :
    (∃ e, exTaskVBadShape.execute exPatchV = Except.error e) ∧
    ∀ q, exTaskVBadShape.execute exPatchV ≠ Except.ok q :=
  c6_unresolvable_shape_error exTaskVBadShape exPatchV (Or.inl rfl)

/-- C7: a feature list containing any feature whose kind is not both
spatial and discrete makes `RasterToVector.__init__` fail with the
configuration error; the constructor takes no patch, so the error
precedes any host read or write. -/
theorem c7_feature_kind_guard (features : List (FeatureType × String × String))
    (values : Option (List Int)) (vcn : Option String) (rdt : Option DType)
    (h : ∃ f ∈ features, (f.1.is_spatial && f.1.is_discrete) = false) :
    RasterToVector.init features values vcn rdt =
      Except.error "Input features should be a spatial mask" := by
  unfold RasterToVector.init
  rw [if_neg]
  intro hall
  obtain ⟨f, hf, hfalse⟩ := h
  have := List.all_eq_true.mp hall f hf
  rw [hfalse] at this
  exact Bool.noConfusion this

/-- Closed witness for C7: a DATA feature (spatial but continuous) is
rejected at configuration time. -/
theorem c7_feature_kind_guard_witness :
    RasterToVector.init [(FeatureType.data, "D", "V")] none none none =
      Except.error "Input features should be a spatial mask" :=
  c7_feature_kind_guard _ _ _ _ ⟨(FeatureType.data, "D", "V"), by decide, by decide⟩

/-- C8: when the clipped vector dataset is empty, a rasterize call over
a pre-existing base grid succeeds and stores a grid with exactly the
same cell values as the existing feature. -/
theorem c8_empty_submap_preserves_grid (t : VectorToRaster) (p : EOPatch) (arr : NdArray)
    (hw : Nat × Nat)
    (hexist : p.getRaster t.feature_type t.feature_name = some arr)
    (hempty : t.getSubmap p = [])
    (hshape : t.getShape p = Except.ok hw) :
    ∃ q, t.execute p = Except.ok q ∧
      ∃ res, q.getRaster t.feature_type t.feature_name = some res ∧ res.vals = arr.vals := by
  have hex : t.execute p =
      .ok (p.setRaster t.feature_type t.feature_name arr.squeeze.newaxisLast) := by
    unfold VectorToRaster.execute
    rw [hshape, hexist, hempty]
    rfl
  exact ⟨_, hex, _, getRaster_setRaster .., rfl⟩

/-- Closed witness for C8: the example task whose only row misses the
window leaves the pre-existing grid's values untouched. -/
theorem c8_empty_submap_preserves_grid_witness :
    ∃ q, exTaskVEmpty.execute exPatchV = Except.ok q ∧
      ∃ res, q.getRaster exTaskVEmpty.feature_type exTaskVEmpty.feature_name = some res ∧
        res.vals = exGrid221.vals :=
  c8_empty_submap_preserves_grid exTaskVEmpty exPatchV exGrid221 (2, 2) rfl rfl rfl

/-- C10: when the target feature already exists, `VectorToRaster.execute`
succeeds (even when the requested shape differs from the existing grid)
and the stored grid's dtype and spatial shape come from the existing
array (squeezed), not from `raster_shape` or `raster_dtype`. -/
theorem c10_existing_grid_priority (t : VectorToRaster) (p : EOPatch) (arr : NdArray)
    (hw : Nat × Nat)
    (hexist : p.getRaster t.feature_type t.feature_name = some arr)
    (hshape : t.getShape p = Except.ok hw) :
    ∃ q res, t.execute p = Except.ok q ∧
      q.getRaster t.feature_type t.feature_name = some res ∧
      res.dtype = arr.dtype ∧ res.shape = arr.squeeze.shape ++ [1] := by
  have hex : t.execute p = .ok (p.setRaster t.feature_type t.feature_name
      ((if (t.getSubmap p).isEmpty then arr.squeeze
        else rasterizeInto arr.squeeze (cascadedUnion (t.getSubmap p))
          t.raster_value).newaxisLast)) := by
    unfold VectorToRaster.execute
    rw [hshape, hexist]
  refine ⟨_, _, hex, getRaster_setRaster .., ?_, ?_⟩
  · show ((if c : _ then _ else _) : NdArray).newaxisLast.dtype = arr.dtype
    split <;> rfl
  · show ((if c : _ then _ else _) : NdArray).newaxisLast.shape = arr.squeeze.shape ++ [1]
    split <;> rfl

/-- Closed witness for C10: requested shape 3×3 and dtype uint8 against
an existing 2×2×1 int32 grid — no error, and the stored grid keeps the
existing dtype and squeezed shape. -/
theorem c10_existing_grid_priority_witness :
    ∃ q res, exTaskVMismatch.execute exPatchV = Except.ok q ∧
      q.getRaster exTaskVMismatch.feature_type exTaskVMismatch.feature_name = some res ∧
      res.dtype = exGrid221.dtype ∧ res.shape = exGrid221.squeeze.shape ++ [1] :=
  c10_existing_grid_priority exTaskVMismatch exPatchV exGrid221 (3, 3) rfl rfl

/-- C3: the base grid of a rasterize call is the existing feature when
present (so every pixel outside the burned union keeps its existing
value), and otherwise a freshly allocated grid in which every pixel
outside the burned union holds `no_data_value`. -/
theorem c3_base_grid_selection (t : VectorToRaster) (p : EOPatch) (hw : Nat × Nat)
    (hshape : t.getShape p = Except.ok hw) :
    (∀ arr, p.getRaster t.feature_type t.feature_name = some arr →
      ∃ q res, t.execute p = Except.ok q ∧
        q.getRaster t.feature_type t.feature_name = some res ∧
        ∀ idx, (cascadedUnion (t.getSubmap p)).contains
            (idx / arr.squeeze.shape.getD 1 0, idx % arr.squeeze.shape.getD 1 0) = false →
          res.vals.getD idx 0 = arr.vals.getD idx 0) ∧
    (p.getRaster t.feature_type t.feature_name = none →
      ∃ q res, t.execute p = Except.ok q ∧
        q.getRaster t.feature_type t.feature_name = some res ∧
        ∀ idx, idx < hw.1 * hw.2 →
          (cascadedUnion (t.getSubmap p)).contains (idx / hw.2, idx % hw.2) = false →
          res.vals.getD idx 0 = t.no_data_value) := by
  constructor
  · intro arr hexist
    have hex : t.execute p = .ok (p.setRaster t.feature_type t.feature_name
        ((if (t.getSubmap p).isEmpty then arr.squeeze
          else rasterizeInto arr.squeeze (cascadedUnion (t.getSubmap p))
            t.raster_value).newaxisLast)) := by
      unfold VectorToRaster.execute
      rw [hshape, hexist]
    refine ⟨_, _, hex, getRaster_setRaster .., ?_⟩
    intro idx hout
    show ((if c : _ then _ else _) : NdArray).vals.getD idx 0 = arr.vals.getD idx 0
    split
    · rfl
    · exact rasterizeInto_getD arr.squeeze _ _ idx hout
  · intro hnone
    have hex : t.execute p = .ok (p.setRaster t.feature_type t.feature_name
        ((if (t.getSubmap p).isEmpty
          then NdArray.full [hw.1, hw.2] t.no_data_value t.raster_dtype
          else rasterizeInto (NdArray.full [hw.1, hw.2] t.no_data_value t.raster_dtype)
            (cascadedUnion (t.getSubmap p)) t.raster_value).newaxisLast)) := by
      unfold VectorToRaster.execute
      rw [hshape, hnone]
    refine ⟨_, _, hex, getRaster_setRaster .., ?_⟩
    intro idx hidx hout
    have hprod : idx < ([hw.1, hw.2] : List Nat).prod := by
      simpa [Nat.mul_one] using hidx
    show ((if c : _ then _ else _) : NdArray).vals.getD idx 0 = t.no_data_value
    split
    · exact full_getD _ _ _ idx hprod
    · rw [rasterizeInto_getD _ _ _ _ hout]
      exact full_getD _ _ _ idx hprod

/-- Closed witness for C3: the example task over the patch with the
existing grid and over a missing feature name both satisfy the base-grid
selection property. -/
theorem c3_base_grid_selection_witness :
    ((∀ arr, exPatchV.getRaster exTaskV.feature_type exTaskV.feature_name = some arr →
      ∃ q res, exTaskV.execute exPatchV = Except.ok q ∧
        q.getRaster exTaskV.feature_type exTaskV.feature_name = some res ∧
        ∀ idx, (cascadedUnion (exTaskV.getSubmap exPatchV)).contains
            (idx / arr.squeeze.shape.getD 1 0, idx % arr.squeeze.shape.getD 1 0) = false →
          res.vals.getD idx 0 = arr.vals.getD idx 0) ∧
    (exPatchV.getRaster exTaskV.feature_type exTaskV.feature_name = none →
      ∃ q res, exTaskV.execute exPatchV = Except.ok q ∧
        q.getRaster exTaskV.feature_type exTaskV.feature_name = some res ∧
        ∀ idx, idx < 2 * 2 →
          (cascadedUnion (exTaskV.getSubmap exPatchV)).contains (idx / 2, idx % 2) = false →
          res.vals.getD idx 0 = exTaskV.no_data_value)) :=
  c3_base_grid_selection exTaskV exPatchV (2, 2) rfl

/-- C9 as written is FALSE: with a pre-existing two-channel 2×2×2 grid
and requested shape (2,2), the stored array has shape (2,2,2,1), not
(height, width, 1). -/
theorem c9_existing_multichannel_counterexample :
    (exTaskV9.execute exPatchV9).map
        (fun q => (q.getRaster .maskTimeless "M").map NdArray.shape) =
      Except.ok (some [2, 2, 2, 1]) ∧ ([2, 2, 2, 1] : List Nat) ≠ [2, 2, 1] := by
  exact ⟨rfl, by decide⟩

/-- C9 (amended): the stored grid always gains exactly one trailing
singleton axis — shape (height, width, 1) when the feature did not
pre-exist; when it pre-existed, the stored shape is the existing array's
squeezed shape with a trailing 1 appended (which is (height, width, 1)
exactly when the existing array squeezes to two axes). -/
theorem c9_trailing_axis_shape (t : VectorToRaster) (p : EOPatch) (hw : Nat × Nat)
    (hshape : t.getShape p = Except.ok hw) :
    (p.getRaster t.feature_type t.feature_name = none →
      ∃ q res, t.execute p = Except.ok q ∧
        q.getRaster t.feature_type t.feature_name = some res ∧
        res.shape = [hw.1, hw.2, 1]) ∧
    (∀ arr, p.getRaster t.feature_type t.feature_name = some arr →
      ∃ q res, t.execute p = Except.ok q ∧
        q.getRaster t.feature_type t.feature_name = some res ∧
        res.shape = arr.squeeze.shape ++ [1]) := by
  constructor
  · intro hnone
    have hex : t.execute p = .ok (p.setRaster t.feature_type t.feature_name
        ((if (t.getSubmap p).isEmpty
          then NdArray.full [hw.1, hw.2] t.no_data_value t.raster_dtype
          else rasterizeInto (NdArray.full [hw.1, hw.2] t.no_data_value t.raster_dtype)
            (cascadedUnion (t.getSubmap p)) t.raster_value).newaxisLast)) := by
      unfold VectorToRaster.execute
      rw [hshape, hnone]
    refine ⟨_, _, hex, getRaster_setRaster .., ?_⟩
    show ((if c : _ then _ else _) : NdArray).newaxisLast.shape = [hw.1, hw.2, 1]
    split <;> rfl
  · intro arr hexist
    have hex : t.execute p = .ok (p.setRaster t.feature_type t.feature_name
        ((if (t.getSubmap p).isEmpty then arr.squeeze
          else rasterizeInto arr.squeeze (cascadedUnion (t.getSubmap p))
            t.raster_value).newaxisLast)) := by
      unfold VectorToRaster.execute
      rw [hshape, hexist]
    refine ⟨_, _, hex, getRaster_setRaster .., ?_⟩
    show ((if c : _ then _ else _) : NdArray).newaxisLast.shape = arr.squeeze.shape ++ [1]
    split <;> rfl

/-- Closed witness for C9 (amended): a task targeting a feature name
absent from the host stores a (2,2,1)-shaped grid. -/
theorem c9_trailing_axis_shape_witness :
    ∃ q res, exTaskVNew.execute exPatchV = Except.ok q ∧
      q.getRaster exTaskVNew.feature_type exTaskVNew.feature_name = some res ∧
      res.shape = [2, 2, 1] :=
  (c9_trailing_axis_shape exTaskVNew exPatchV (2, 2) rfl).1 rfl

/-- Every shape traced from a masked channel has its value in the filter
list and consists only of cells whose value is in the filter list. -/
theorem shapesChannel_sound (a : NdArray) (h w c k : Nat) (vs : List Int)
    (pr : Geometry × Int) (hpr : pr ∈ shapesChannel a h w c k (some vs)) :
    pr.2 ∈ vs ∧ ∀ pt ∈ pr.1, a.valAt3 w c pt.1 pt.2 k ∈ vs := by
  unfold shapesChannel at hpr
  obtain ⟨v, hv, heq⟩ := List.mem_map.mp hpr
  obtain ⟨pt0, hpt0, hval⟩ := List.mem_map.mp (List.mem_dedup.mp hv)
  have hmask0 : maskTest (some vs) a w c pt0.1 pt0.2 k = true :=
    (List.mem_filter.mp hpt0).2
  have hval0 : a.valAt3 w c pt0.1 pt0.2 k ∈ vs := by
    simpa [maskTest] using hmask0
  subst heq
  constructor
  · rw [← hval]
    exact hval0
  · intro pt hpt
    have hmem := List.mem_filter.mp hpt
    have hmask1 : maskTest (some vs) a w c pt.1 pt.2 k = true :=
      (List.mem_filter.mp hmem.1).2
    simpa [maskTest] using hmask1

/-- C1 as written is FALSE for the empty value filter: with
`values = []`, Python truthiness disables the mask entirely, so a
1×1×1 raster of value 5 still yields a row with value 5 ∉ ∅. -/
theorem c1_empty_filter_counterexample :
    exTaskEmptyFilter.values = some [] ∧
    (exTaskEmptyFilter.vectorizeSingleRaster exArr111 exAffine 4326 none).valueCol =
      some ("VALUE", [5]) ∧
    (5 : Int) ∉ ([] : List Int) :=
  ⟨rfl, rfl, by decide⟩

/-- C1 (amended): for every NONEMPTY value filter V, every row of the
vectorization output has its value in V, and every output geometry
consists only of cells whose raster value (on that geometry's channel)
lies in V; an empty filter list is falsy and is treated like an omitted
filter, vectorizing all values. -/
theorem c1_value_filter_containment (t : RasterToVector) (raster : NdArray)
    (dataTransform : Affine) (crs : Nat) (tsOpt : Option Nat) (vs : List Int)
    (hv : t.values = some vs) (hne : vs ≠ []) :
    (∀ v ∈ valueListOf (t.vectorizeSingleRaster raster dataTransform crs tsOpt), v ∈ vs) ∧
    (∀ g ∈ (t.vectorizeSingleRaster raster dataTransform crs tsOpt).geometry, ∀ pt ∈ g,
      ∃ k < raster.shape.getLast?.getD 1,
        raster.valAt3 (raster.shape.getD 1 0) (raster.shape.getLast?.getD 1)
          pt.1 pt.2 k ∈ vs) := by
  have hmask : (if pyTruthy t.values then t.values else none) = some vs := by
    rw [hv]
    cases vs with
    | nil => exact absurd rfl hne
    | cons a l => rfl
  have hA : t.vectorizeSingleRaster raster dataTransform crs tsOpt =
      { geometry := ((List.range (raster.shape.getLast?.getD 1)).flatMap
          (fun k => shapesChannel raster (raster.shape.getD 0 0) (raster.shape.getD 1 0)
            (raster.shape.getLast?.getD 1) k (some vs))).map Prod.fst,
        valueCol := t.value_column_name.map (fun nm =>
          (nm, ((List.range (raster.shape.getLast?.getD 1)).flatMap
            (fun k => shapesChannel raster (raster.shape.getD 0 0) (raster.shape.getD 1 0)
              (raster.shape.getLast?.getD 1) k (some vs))).map Prod.snd)),
        timestampCol := tsOpt.map (fun ts =>
          List.replicate (((List.range (raster.shape.getLast?.getD 1)).flatMap
            (fun k => shapesChannel raster (raster.shape.getD 0 0) (raster.shape.getD 1 0)
              (raster.shape.getLast?.getD 1) k (some vs))).map Prod.fst).length ts),
        crs := crs } := by
    unfold RasterToVector.vectorizeSingleRaster
    rw [hmask]
  constructor
  · intro v hv'
    rw [hA] at hv'
    cases hvc : t.value_column_name with
    | none =>
      rw [hvc] at hv'
      simp [valueListOf] at hv'
    | some nm =>
      rw [hvc] at hv'
      simp only [valueListOf, Option.map_some', Option.getD_some] at hv'
      obtain ⟨pr, hpr, hsnd⟩ := List.mem_map.mp hv'
      obtain ⟨k, _, hprk⟩ := List.mem_flatMap.mp hpr
      rw [← hsnd]
      exact (shapesChannel_sound raster _ _ _ k vs pr hprk).1
  · intro g hg pt hpt
    rw [hA] at hg
    obtain ⟨pr, hpr, hfst⟩ := List.mem_map.mp hg
    obtain ⟨k, hk, hprk⟩ := List.mem_flatMap.mp hpr
    refine ⟨k, List.mem_range.mp hk, ?_⟩
    refine (shapesChannel_sound raster _ _ _ k vs pr hprk).2 pt ?_
    rw [hfst]
    exact hpt

/-- Closed witness for C1 (amended): with filter {5} over the example
raster every output value is in {5} and every output cell holds a value
in {5}. -/
theorem c1_value_filter_containment_witness :
    (∀ v ∈ valueListOf (exTaskFilter5.vectorizeSingleRaster exArr111 exAffine 4326 none),
      v ∈ [(5 : Int)]) ∧
    (∀ g ∈ (exTaskFilter5.vectorizeSingleRaster exArr111 exAffine 4326 none).geometry,
      ∀ pt ∈ g, ∃ k < exArr111.shape.getLast?.getD 1,
        exArr111.valAt3 (exArr111.shape.getD 1 0) (exArr111.shape.getLast?.getD 1)
          pt.1 pt.2 k ∈ [(5 : Int)]) :=
  c1_value_filter_containment exTaskFilter5 exArr111 exAffine 4326 none [5] rfl (by decide)

/-- Casting does not change the shape of an array. -/
theorem astypeOpt_shape (a : NdArray) (o : Option DType) : (a.astypeOpt o).shape = a.shape := by
  cases o <;> rfl

/-- `mapM` over `Except` succeeds with the pointwise images when every
element maps to a success. -/
theorem mapM_ok_of_forall {α β : Type} (f : α → Except String β) (g : α → β) :
    ∀ l : List α, (∀ a ∈ l, f a = Except.ok (g a)) → l.mapM f = Except.ok (l.map g) := by
  intro l
  induction l with
  | nil => intro _; rfl
  | cons a l ih =>
    intro h
    rw [List.mapM_cons, h a (List.mem_cons_self a l),
      ih (fun b hb => h b (List.mem_cons_of_mem a hb))]
    rfl

/-- An in-range time index makes `sliceTable` succeed with `sliceGDF`. -/
theorem sliceTable_ok (t : RasterToVector) (raster : NdArray) (dataTransform : Affine)
    (crs : Nat) (tss : List Nat) (i : Nat) (h : i < tss.length) :
    t.sliceTable raster dataTransform crs tss i =
      Except.ok (t.sliceGDF raster dataTransform crs tss i) := by
  unfold RasterToVector.sliceTable RasterToVector.sliceGDF
  rw [List.getElem?_eq_getElem h, List.getD_eq_getElem tss 0 h]

/-- A per-slice table carries the CRS it was built with. -/
theorem sliceGDF_crs (t : RasterToVector) (raster : NdArray) (dataTransform : Affine)
    (crs : Nat) (tss : List Nat) (i : Nat) :
    (t.sliceGDF raster dataTransform crs tss i).crs = crs := rfl

/-- A per-slice table's timestamp column is one copy of the slice's
timestamp per row. -/
theorem sliceGDF_timestampCol (t : RasterToVector) (raster : NdArray) (dataTransform : Affine)
    (crs : Nat) (tss : List Nat) (i : Nat) :
    (t.sliceGDF raster dataTransform crs tss i).timestampCol =
      some (List.replicate (t.sliceGDF raster dataTransform crs tss i).geometry.length
        (tss.getD i 0)) := rfl

/-- Composition of a nonempty table list adopts the head's CRS. -/
theorem composeTables_crs (l : List GeoDataFrame) (g : GeoDataFrame)
    (h : composeTables l = some g) :
    ∃ g0 rest, l = g0 :: rest ∧ g.crs = g0.crs := by
  cases l with
  | nil => exact absurd h (by simp [composeTables])
  | cons g0 rest =>
    refine ⟨g0, rest, rfl, ?_⟩
    have : g = { geometry := ((g0 :: rest).map GeoDataFrame.geometry).flatten
                 valueCol := g0.valueCol.map (fun pr =>
                   (pr.1, ((g0 :: rest).map
                     (fun gi => (gi.valueCol.map Prod.snd).getD [])).flatten))
                 timestampCol := g0.timestampCol.map (fun _ =>
                   ((g0 :: rest).map (fun gi => gi.timestampCol.getD [])).flatten)
                 crs := g0.crs } := (Option.some.injEq .. ▸ h).symm
    rw [this]

/-- Composition concatenates the geometry columns in list order. -/
theorem composeTables_geometry (l : List GeoDataFrame) (g : GeoDataFrame)
    (h : composeTables l = some g) :
    g.geometry = (l.map GeoDataFrame.geometry).flatten := by
  cases l with
  | nil => exact absurd h (by simp [composeTables])
  | cons g0 rest =>
    have := (Option.some.injEq .. ▸ h).symm
    rw [this]

/-- When the head table has a timestamp column, composition concatenates
the timestamp columns in list order. -/
theorem composeTables_timestampCol (l : List GeoDataFrame) (g : GeoDataFrame)
    (h : composeTables l = some g)
    (h0 : ∀ g0 rest, l = g0 :: rest → g0.timestampCol.isSome = true) :
    g.timestampCol = some ((l.map (fun gi => gi.timestampCol.getD [])).flatten) := by
  cases l with
  | nil => exact absurd h (by simp [composeTables])
  | cons g0 rest =>
    have hg := (Option.some.injEq .. ▸ h).symm
    rw [hg]
    obtain ⟨ts, hts⟩ := Option.isSome_iff_exists.mp (h0 g0 rest rfl)
    show (g0.timestampCol.map _) = _
    rw [hts]
    rfl

/-- Ascending blocks of non-decreasing values concatenate to a
non-decreasing list. -/
theorem pairwise_flatten_blocks (f : Nat → List Nat) :
    ∀ T : Nat, (∀ i, (f i).Pairwise (fun x y => x ≤ y)) →
      (∀ i j, i < j → j < T → ∀ x ∈ f i, ∀ y ∈ f j, x ≤ y) →
      ((List.range T).map f).flatten.Pairwise (fun x y => x ≤ y) := by
  intro T
  induction T with
  | zero => intro _ _; simp
  | succ n ih =>
    intro hin hcross
    rw [List.range_succ, List.map_append, List.flatten_append, List.pairwise_append]
    refine ⟨ih hin (fun i j hij hj => hcross i j hij (Nat.lt_succ_of_lt hj)), ?_, ?_⟩
    · simp only [List.map_cons, List.map_nil, List.flatten_cons, List.flatten_nil,
        List.append_nil]
      exact hin n
    · intro a ha b hb
      simp only [List.map_cons, List.map_nil, List.flatten_cons, List.flatten_nil,
        List.append_nil] at hb
      obtain ⟨l, hl, hal⟩ := List.mem_flatten.mp ha
      obtain ⟨i, hi, hfi⟩ := List.mem_map.mp hl
      exact hcross i n (List.mem_range.mp hi) (Nat.lt_succ_self n) a (hfi ▸ hal) b hb

/-- `execute` over a single parsed feature triple is the per-feature
body. -/
theorem execute_singleton (t : RasterToVector) (p : EOPatch) (ft : FeatureType)
    (fn vfn : String) (hf : t.features = [(ft, fn, vfn)]) :
    t.execute p = t.executeFeature p ft fn vfn := by
  unfold RasterToVector.execute
  rw [hf]
  simp

/-- Core characterization of `executeFeature` on a time-varying feature:
it composes exactly the ascending-index per-slice tables and stores the
composition under the VECTOR kind. -/
theorem executeFeature_timevarying (t : RasterToVector) (p : EOPatch)
    (ft : FeatureType) (fn vfn : String) (arr : NdArray)
    (hg : p.getRaster ft fn = some arr) (htl : ft.is_timeless = false)
    (hT : 0 < arr.shape.getD 0 0) (hlen : arr.shape.getD 0 0 ≤ p.timestamps.length) :
    ∃ g, composeTables (t.sliceGDFList (arr.astypeOpt t.raster_dtype)
        (fromBounds p.bboxPoly (arr.shape.getD 2 0) (arr.shape.getD 1 0))
        p.crsEpsg p.timestamps (arr.shape.getD 0 0)) = some g ∧
      t.executeFeature p ft fn vfn = Except.ok (p.setVector .vector vfn g) := by
  have hshape0 : (arr.astypeOpt t.raster_dtype).shape = arr.shape := astypeOpt_shape ..
  have hmapM : (List.range (arr.shape.getD 0 0)).mapM
      (t.sliceTable (arr.astypeOpt t.raster_dtype)
        (fromBounds p.bboxPoly (arr.shape.getD 2 0) (arr.shape.getD 1 0))
        p.crsEpsg p.timestamps) =
      Except.ok (t.sliceGDFList (arr.astypeOpt t.raster_dtype)
        (fromBounds p.bboxPoly (arr.shape.getD 2 0) (arr.shape.getD 1 0))
        p.crsEpsg p.timestamps (arr.shape.getD 0 0)) :=
    mapM_ok_of_forall _ _ _ (fun i hi =>
      sliceTable_ok _ _ _ _ _ _ (Nat.lt_of_lt_of_le (List.mem_range.mp hi) hlen))
  have hne : t.sliceGDFList (arr.astypeOpt t.raster_dtype)
      (fromBounds p.bboxPoly (arr.shape.getD 2 0) (arr.shape.getD 1 0))
      p.crsEpsg p.timestamps (arr.shape.getD 0 0) ≠ [] := by
    unfold RasterToVector.sliceGDFList
    simp only [ne_eq, List.map_eq_nil_iff, List.range_eq_nil]
    omega
  obtain ⟨g0, rest, hcons⟩ := List.exists_cons_of_ne_nil hne
  have hcomp : ∃ g, composeTables (t.sliceGDFList (arr.astypeOpt t.raster_dtype)
      (fromBounds p.bboxPoly (arr.shape.getD 2 0) (arr.shape.getD 1 0))
      p.crsEpsg p.timestamps (arr.shape.getD 0 0)) = some g := by
    rw [hcons]
    exact ⟨_, rfl⟩
  obtain ⟨g, hgc⟩ := hcomp
  refine ⟨g, hgc, ?_⟩
  simp only [RasterToVector.executeFeature, hg, htl, Bool.false_eq_true, if_false]
  rw [hshape0, hmapM]
  simp only []
  rw [hgc]

/-- C2 as written is FALSE for the composition operation itself: two
tables with mismatched CRS metadata compose without any error, the
result silently adopting the first table's CRS. -/
theorem c2_crs_mismatch_counterexample :
    exTableA.crs ≠ exTableB.crs ∧
    composeTables [exTableA, exTableB] =
      some { geometry := [], valueCol := none, timestampCol := none, crs := 4326 } :=
  ⟨by decide, rfl⟩

/-- C2 (amended): composition performs no CRS check and takes the first
constituent's CRS; within `execute` every per-slice table is built with
the host bounding box's CRS, so all constituent CRSs coincide and the
concatenated table's CRS equals that common CRS. -/
theorem c2_crs_common_propagation (t : RasterToVector) (p : EOPatch)
    (ft : FeatureType) (fn vfn : String) (arr : NdArray)
    (hf : t.features = [(ft, fn, vfn)])
    (hg : p.getRaster ft fn = some arr) (htl : ft.is_timeless = false)
    (hT : 0 < arr.shape.getD 0 0) (hlen : arr.shape.getD 0 0 ≤ p.timestamps.length) :
    ∃ g, t.execute p = Except.ok (p.setVector .vector vfn g) ∧
      (∀ gi ∈ t.sliceGDFList (arr.astypeOpt t.raster_dtype)
          (fromBounds p.bboxPoly (arr.shape.getD 2 0) (arr.shape.getD 1 0))
          p.crsEpsg p.timestamps (arr.shape.getD 0 0), gi.crs = p.crsEpsg) ∧
      g.crs = p.crsEpsg := by
  obtain ⟨g, hgc, hexec⟩ := executeFeature_timevarying t p ft fn vfn arr hg htl hT hlen
  have hall : ∀ gi ∈ t.sliceGDFList (arr.astypeOpt t.raster_dtype)
      (fromBounds p.bboxPoly (arr.shape.getD 2 0) (arr.shape.getD 1 0))
      p.crsEpsg p.timestamps (arr.shape.getD 0 0), gi.crs = p.crsEpsg := by
    intro gi hgi
    obtain ⟨i, _, hfi⟩ := List.mem_map.mp hgi
    rw [← hfi]
    exact sliceGDF_crs ..
  refine ⟨g, ?_, hall, ?_⟩
  · rw [execute_singleton t p ft fn vfn hf]
    exact hexec
  · obtain ⟨g0, rest, hl, hcrs⟩ := composeTables_crs _ _ hgc
    rw [hcrs]
    exact hall g0 (by rw [hl]; exact List.mem_cons_self g0 rest)

/-- Closed witness for C2 (amended): on the example two-slice raster the
composed table and every constituent table carry the host CRS 32633. -/
theorem c2_crs_common_propagation_witness :
    ∃ g, exTaskT.execute exPatchT = Except.ok (exPatchT.setVector .vector "V" g) ∧
      (∀ gi ∈ exTaskT.sliceGDFList (exMaskArr.astypeOpt exTaskT.raster_dtype)
          (fromBounds exPatchT.bboxPoly (exMaskArr.shape.getD 2 0) (exMaskArr.shape.getD 1 0))
          exPatchT.crsEpsg exPatchT.timestamps (exMaskArr.shape.getD 0 0),
        gi.crs = exPatchT.crsEpsg) ∧
      g.crs = exPatchT.crsEpsg :=
  c2_crs_common_propagation exTaskT exPatchT .mask "M" "V" exMaskArr rfl (by decide) rfl
    (by decide) (by decide)

/-- C4: a timeless feature is vectorized by a single call with no
timestamp and its table stored directly; a time-varying feature is
vectorized per time index in ascending order, every row of slice `i`
is tagged with the host's `i`-th timestamp, the per-slice tables are
concatenated in time order preserving internal row order, and for
non-decreasing host timestamps the resulting timestamp column is
non-decreasing. -/
theorem c4_time_order_composition (t : RasterToVector) (p : EOPatch)
    (ft : FeatureType) (fn vfn : String) (arr : NdArray)
    (hf : t.features = [(ft, fn, vfn)])
    (hg : p.getRaster ft fn = some arr) :
    (ft.is_timeless = true →
      t.execute p = Except.ok (p.setVector .vectorTimeless vfn
        (t.vectorizeSingleRaster (arr.astypeOpt t.raster_dtype)
          (fromBounds p.bboxPoly (arr.shape.getD 1 0) (arr.shape.getD 0 0))
          p.crsEpsg none))) ∧
    (ft.is_timeless = false → 0 < arr.shape.getD 0 0 →
      arr.shape.getD 0 0 ≤ p.timestamps.length →
      ∃ g, t.execute p = Except.ok (p.setVector .vector vfn g) ∧
        g.geometry = ((List.range (arr.shape.getD 0 0)).map
          (fun i => (t.sliceGDF (arr.astypeOpt t.raster_dtype)
            (fromBounds p.bboxPoly (arr.shape.getD 2 0) (arr.shape.getD 1 0))
            p.crsEpsg p.timestamps i).geometry)).flatten ∧
        g.timestampCol = some ((List.range (arr.shape.getD 0 0)).map
          (fun i => List.replicate (t.sliceGDF (arr.astypeOpt t.raster_dtype)
            (fromBounds p.bboxPoly (arr.shape.getD 2 0) (arr.shape.getD 1 0))
            p.crsEpsg p.timestamps i).geometry.length (p.timestamps.getD i 0))).flatten ∧
        (p.timestamps.Pairwise (fun x y => x ≤ y) →
          (g.timestampCol.getD []).Pairwise (fun x y => x ≤ y))) := by
  constructor
  · intro htl
    rw [execute_singleton t p ft fn vfn hf]
    simp only [RasterToVector.executeFeature, hg, htl, if_true]
  · intro htl hT hlen
    obtain ⟨g, hgc, hexec⟩ := executeFeature_timevarying t p ft fn vfn arr hg htl hT hlen
    have hexec' : t.execute p = Except.ok (p.setVector .vector vfn g) := by
      rw [execute_singleton t p ft fn vfn hf]
      exact hexec
    have hgeom : g.geometry = ((List.range (arr.shape.getD 0 0)).map
        (fun i => (t.sliceGDF (arr.astypeOpt t.raster_dtype)
          (fromBounds p.bboxPoly (arr.shape.getD 2 0) (arr.shape.getD 1 0))
          p.crsEpsg p.timestamps i).geometry)).flatten := by
      rw [composeTables_geometry _ _ hgc]
      unfold RasterToVector.sliceGDFList
      rw [List.map_map]
      rfl
    have hts : g.timestampCol = some ((List.range (arr.shape.getD 0 0)).map
        (fun i => List.replicate (t.sliceGDF (arr.astypeOpt t.raster_dtype)
          (fromBounds p.bboxPoly (arr.shape.getD 2 0) (arr.shape.getD 1 0))
          p.crsEpsg p.timestamps i).geometry.length (p.timestamps.getD i 0))).flatten := by
      rw [composeTables_timestampCol _ _ hgc]
      · unfold RasterToVector.sliceGDFList
        rw [List.map_map]
        rfl
      · intro g0 rest hl
        have hmem : g0 ∈ t.sliceGDFList (arr.astypeOpt t.raster_dtype)
            (fromBounds p.bboxPoly (arr.shape.getD 2 0) (arr.shape.getD 1 0))
            p.crsEpsg p.timestamps (arr.shape.getD 0 0) := by
          rw [hl]
          exact List.mem_cons_self g0 rest
        obtain ⟨i, _, hfi⟩ := List.mem_map.mp hmem
        rw [← hfi, sliceGDF_timestampCol]
        rfl
    refine ⟨g, hexec', hgeom, hts, ?_⟩
    intro hsorted
    rw [hts]
    show List.Pairwise _ (Option.getD (some _) [])
    rw [Option.getD_some]
    refine pairwise_flatten_blocks _ (arr.shape.getD 0 0) (fun i => ?_) ?_
    · rw [List.pairwise_replicate]
      exact Or.inr (Nat.le_refl _)
    · intro i j hij hj x hx y hy
      rw [List.mem_replicate] at hx hy
      rw [hx.2, hy.2]
      have hjlen : j < p.timestamps.length := Nat.lt_of_lt_of_le hj hlen
      have hilen : i < p.timestamps.length := Nat.lt_trans hij hjlen
      rw [List.getD_eq_getElem p.timestamps 0 hilen, List.getD_eq_getElem p.timestamps 0 hjlen]
      exact List.pairwise_iff_getElem.mp hsorted i j hilen hjlen hij

/-- Closed witness for C4: the example two-slice raster with timestamps
10 < 20 satisfies both branches of the time-ordering property. -/
theorem c4_time_order_composition_witness :
    ((FeatureType.mask.is_timeless = true →
      exTaskT.execute exPatchT = Except.ok (exPatchT.setVector .vectorTimeless "V"
        (exTaskT.vectorizeSingleRaster (exMaskArr.astypeOpt exTaskT.raster_dtype)
          (fromBounds exPatchT.bboxPoly (exMaskArr.shape.getD 1 0) (exMaskArr.shape.getD 0 0))
          exPatchT.crsEpsg none))) ∧
    (FeatureType.mask.is_timeless = false → 0 < exMaskArr.shape.getD 0 0 →
      exMaskArr.shape.getD 0 0 ≤ exPatchT.timestamps.length →
      ∃ g, exTaskT.execute exPatchT = Except.ok (exPatchT.setVector .vector "V" g) ∧
        g.geometry = ((List.range (exMaskArr.shape.getD 0 0)).map
          (fun i => (exTaskT.sliceGDF (exMaskArr.astypeOpt exTaskT.raster_dtype)
            (fromBounds exPatchT.bboxPoly (exMaskArr.shape.getD 2 0) (exMaskArr.shape.getD 1 0))
            exPatchT.crsEpsg exPatchT.timestamps i).geometry)).flatten ∧
        g.timestampCol = some ((List.range (exMaskArr.shape.getD 0 0)).map
          (fun i => List.replicate (exTaskT.sliceGDF (exMaskArr.astypeOpt exTaskT.raster_dtype)
            (fromBounds exPatchT.bboxPoly (exMaskArr.shape.getD 2 0) (exMaskArr.shape.getD 1 0))
            exPatchT.crsEpsg exPatchT.timestamps i).geometry.length
            (exPatchT.timestamps.getD i 0))).flatten ∧
        (exPatchT.timestamps.Pairwise (fun x y => x ≤ y) →
          (g.timestampCol.getD []).Pairwise (fun x y => x ≤ y)))) :=
  c4_time_order_composition exTaskT exPatchT .mask "M" "V" exMaskArr rfl (by decide)

end EOGeom
